import Mathlib

/-!
Shallow embedding of the two command-line tools of this repository:
`discover_models.py` (model filtering and config export) and
`validate_models.py` (registry validation).

Strings are modelled as `List Char`.  Python's `str.lower()` is modelled by
ASCII case folding (`Char.toLower`); every identifier appearing in the
claims is ASCII.  Python's float arithmetic on prices is modelled over `ℚ`.
A JSON field that may be absent is an `Option`; a field whose absence is
indistinguishable in the code from its default (the code only ever reads it
through `.get(key, default)` with one fixed default) is modelled directly at
that default type.

A Python expression that can raise an exception is modelled in `Option`:
`none` is an uncaught exception aborting the surrounding computation.
-/

/-- Python's `pat in hay` substring test on strings (model over `List Char`):
`pat` occurs contiguously inside `hay`. -/
def hasSub (pat : List Char) : List Char → Bool
  | [] => pat.isEmpty
  | c :: rest => pat.isPrefixOf (c :: rest) || hasSub pat rest

/-- Python's `str.lower()` (ASCII case folding). -/
def lowerStr (s : List Char) : List Char :=
  s.map Char.toLower

/-- One model record of the remote catalog, shaped as `discover_models.py`
and `validate_models.py` read it from the wire JSON.

`pricing_prompt` models `m.get('pricing', {}).get('prompt', ...)` together
with Python's `float` parse of it: `none` means the field is absent (the
code then falls back to the string default of the call site), `some none`
means the field is present but `float()` raises on it, and `some (some q)`
means the field is present and parses to the number `q`.

`supported_parameters` and `modality` are read by the code only through
`.get(..., [])` resp. `.get(..., '')`, so absence coincides with the empty
default and they are modelled at the default directly. -/
structure ModelRecord where
  id : List Char
  name : Option (List Char)
  description : Option (List Char)
  pricing_prompt : Option (Option ℚ)
  context_length : Option Nat
  supported_parameters : List (List Char)
  modality : List Char
  created : Option Nat
deriving DecidableEq, Repr

/-- The filtering criteria of `ModelDiscovery.filter_models` (one field per
keyword parameter; `has_reasoning` is accepted by the function but never
read in its body). -/
structure FilterCriteria where
  has_tools : Bool := false
  has_vision : Bool := false
  has_reasoning : Bool := false
  max_input_price : Option ℚ := none
  min_context_window : Option Nat := none
  providers : Option (List (List Char)) := none
  recent_days : Option Nat := none
  search_term : Option (List Char) := none
deriving DecidableEq, Repr

/-- `float(m.get('pricing', {}).get('prompt', '999'))`: a missing field
falls back to the literal string `'999'` which parses to `999`; a present
but unparseable field makes `float` raise (`none`). -/
def pyFloatPrice (m : ModelRecord) : Option ℚ :=
  match m.pricing_prompt with
  | none => some 999
  | some none => none
  | some (some q) => some q

/-- `if has_tools: filtered = [m for m in filtered if 'tools' in
m.get('supported_parameters', [])]`. -/
def toolsStep (c : FilterCriteria) (l : List ModelRecord) : List ModelRecord :=
  if c.has_tools then
    l.filter (fun m => m.supported_parameters.contains ([ 't', 'o', 'o', 'l', 's' ]))
  else l

/-- `if has_vision: filtered = [m for m in filtered if
m.get('architecture', {}).get('modality', '').find('image') >= 0]`. -/
def visionStep (c : FilterCriteria) (l : List ModelRecord) : List ModelRecord :=
  if c.has_vision then
    l.filter (fun m => hasSub ([ 'i', 'm', 'a', 'g', 'e' ]) m.modality)
  else l

/-- The pricing list comprehension `[m for m in filtered if
float(m.get('pricing', {}).get('prompt', '999')) * 1000000 <=
max_input_price]`, with the exception of an unparseable price aborting the
whole comprehension (`none`). -/
def priceFilter (maxp : ℚ) : List ModelRecord → Option (List ModelRecord)
  | [] => some []
  | m :: rest =>
    match pyFloatPrice m with
    | none => none
    | some p =>
      (priceFilter maxp rest).map (fun tl => if p * 1000000 ≤ maxp then m :: tl else tl)

/-- `if max_input_price is not None: ...` (an explicit `None` test, not a
truthiness test: a threshold of `0` does filter). -/
def priceStep (c : FilterCriteria) (l : List ModelRecord) : Option (List ModelRecord) :=
  match c.max_input_price with
  | none => some l
  | some t => priceFilter t l

/-- `if min_context_window: filtered = [m for m in filtered if
m.get('context_length', 0) >= min_context_window]` — a truthiness guard, so
a threshold of `0` imposes nothing. -/
def contextStep (c : FilterCriteria) (l : List ModelRecord) : List ModelRecord :=
  match c.min_context_window with
  | none => l
  | some k => if k ≠ 0 then l.filter (fun m => k ≤ m.context_length.getD 0) else l

/-- `if providers: provider_lower = [p.lower() for p in providers];
filtered = [m for m in filtered if any(prov in m.get('id', '').lower() for
prov in provider_lower)]` — a truthiness guard, so an empty list imposes
nothing. -/
def providersStep (c : FilterCriteria) (l : List ModelRecord) : List ModelRecord :=
  match c.providers with
  | none => l
  | some ps =>
    if ps.isEmpty then l
    else
      let provider_lower := ps.map lowerStr
      l.filter (fun m => provider_lower.any (fun prov => hasSub prov (lowerStr m.id)))

/-- The sort key `lambda m: m.get('created', 0) or 0`. -/
def createdKey (m : ModelRecord) : Nat :=
  m.created.getD 0

/-- `if recent_days: filtered = sorted(filtered, key=..., reverse=True)[:50]`
— a truthiness guard (`--recent 0` imposes nothing); `sorted` is stable and
`reverse=True` orders by the key descending. -/
def recencyStep (c : FilterCriteria) (l : List ModelRecord) : List ModelRecord :=
  match c.recent_days with
  | none => l
  | some d =>
    if d ≠ 0 then
      (l.mergeSort (fun a b => createdKey b ≤ createdKey a)).take 50
    else l

/-- `if search_term: search_lower = search_term.lower(); filtered = [m for m
in filtered if search_lower in m.get('id', '').lower() or search_lower in
m.get('name', '').lower()]` — a truthiness guard, so the empty string
imposes nothing. -/
def searchStep (c : FilterCriteria) (l : List ModelRecord) : List ModelRecord :=
  match c.search_term with
  | none => l
  | some s =>
    if s.isEmpty then l
    else
      let search_lower := lowerStr s
      l.filter (fun m =>
        hasSub search_lower (lowerStr m.id) || hasSub search_lower (lowerStr (m.name.getD [])))

/-- `ModelDiscovery.filter_models`: the pipeline of the seven guarded
stages, in source order (tools, vision, price, context, providers, recency,
search); `none` is the `ValueError` escaping from the price stage. -/
def filter_models (models : List ModelRecord) (c : FilterCriteria) :
    Option (List ModelRecord) :=
  (priceStep c (visionStep c (toolsStep c models))).map
    (fun l => searchStep c (recencyStep c (providersStep c (contextStep c l))))

/-! ## Config Exporter (`ModelDiscovery.export_to_config_format`) -/

/-- The local-identifier derivation: `model_id = model['id'].replace('/', '-')`
followed by `if not model_id.startswith('or-'): model_id = f"or-{model_id}"`. -/
def deriveLocalId (mid : List Char) : List Char :=
  let model_id := mid.map (fun ch => if ch = '/' then '-' else ch)
  if List.isPrefixOf "or-".toList model_id then model_id
  else "or-".toList ++ model_id

/-- The `provider_map` dict of `export_to_config_format`, as the ordered
key-value sequence Python iterates over (insertion order). -/
def provider_map : List (List Char × List Char) :=
  [ ("openai".toList, "OpenAI".toList),
    ("anthropic".toList, "Anthropic".toList),
    ("google".toList, "Google".toList),
    ("meta-llama".toList, "Meta".toList),
    ("deepseek".toList, "DeepSeek".toList),
    ("qwen".toList, "Qwen".toList),
    ("mistralai".toList, "Mistral".toList),
    ("cohere".toList, "Cohere".toList),
    ("x-ai".toList, "xAI".toList),
    ("perplexity".toList, "Perplexity".toList) ]

/-- `provider = 'Unknown'; for key, value in provider_map.items(): if key in
model['id'].lower(): provider = value; break`. -/
def deriveProvider (mid : List Char) : List Char :=
  match provider_map.find? (fun kv => hasSub kv.1 (lowerStr mid)) with
  | some kv => kv.2
  | none => "Unknown".toList

/-- The capability-tag derivation of `export_to_config_format`, appending in
source order: Tools, Vision, Reasoning, then always Streaming. -/
def deriveCapabilities (m : ModelRecord) : List (List Char) :=
  (if m.supported_parameters.contains "tools".toList
      || m.supported_parameters.contains "functions".toList
   then [ "Tools".toList ] else [])
  ++ (if hasSub "image".toList m.modality then [ "Vision".toList ] else [])
  ++ (if hasSub ":thinking".toList m.id
         || hasSub "reasoning".toList (lowerStr (m.description.getD []))
      then [ "Reasoning".toList ] else [])
  ++ [ "Streaming".toList ]

/-- One entry of the exported configuration array. -/
structure ConfigModelEntry where
  id : List Char
  name : List Char
  provider : List Char
  modelId : List Char
  description : List Char
  capabilities : List (List Char)
  enabled : Bool
deriving DecidableEq, Repr

/-- The `config_model` dict built for one model record: `name` falls back to
the catalog id, `description` falls back to `f"{model.get('name', 'Model')}
from {provider}"`, `enabled` is always `False`. -/
def exportEntry (m : ModelRecord) : ConfigModelEntry :=
  { id := deriveLocalId m.id
    name := m.name.getD m.id
    provider := deriveProvider m.id
    modelId := m.id
    description := m.description.getD
      ((m.name.getD "Model".toList) ++ " from ".toList ++ deriveProvider m.id)
    capabilities := deriveCapabilities m
    enabled := false }

/-- `export_to_config_format` restricted to its pure core: the construction
of the `config_models` list (the JSON file write is I/O outside the model). -/
def export_to_config_format (models : List ModelRecord) : List ConfigModelEntry :=
  models.map exportEntry

/-! ## Model Validator (`validate_models.py`)

Network effects are passed in as oracles: `available_models` is the
id-to-record dictionary built by `fetch_available_models` (as its ordered
key-value sequence, keys unique), and `probe` is the outcome of
`test_model_call` per upstream identifier — `(True, reply text)` on success,
`(False, stringified exception)` on failure. -/

/-- The value stored in `result['model_info']`: either the matched catalog
record or the `{"similar_models": ...}` dict of `test_model_exists`. -/
inductive ModelInfo where
  | record (m : ModelRecord)
  | similar (ids : List (List Char))
deriving DecidableEq, Repr

/-- `ModelValidator.test_model_exists`: dictionary lookup; on a miss,
collect the catalog ids containing the queried id case-insensitively and
keep the first 5. -/
def test_model_exists (available_models : List (List Char × ModelRecord))
    (model_id : List Char) : Bool × ModelInfo :=
  match available_models.lookup model_id with
  | some m => (true, ModelInfo.record m)
  | none =>
    let similar := (available_models.map Prod.fst).filter
      (fun k => hasSub (lowerStr model_id) (lowerStr k))
    (false, ModelInfo.similar (similar.take 5))

/-- One entry of the local registry file (`config/models.config.json`), with
the fields `validate_config_model` reads. -/
structure RegistryEntry where
  id : List Char
  name : List Char
  modelId : List Char
  provider : List Char
  enabled : Bool
deriving DecidableEq, Repr

/-- The per-entry outcome dict built by `validate_config_model`. -/
structure ValidationResult where
  id : List Char
  name : List Char
  modelId : List Char
  exists_ : Bool
  callable : Bool
  error : Option (List Char)
  model_info : Option ModelInfo
  suggestion : Option (List Char)
deriving DecidableEq, Repr

/-- Python's `", ".join`. -/
def joinComma : List (List Char) → List Char
  | [] => []
  | [s] => s
  | s :: rest => s ++ ", ".toList ++ joinComma (rest)

/-- `ModelValidator.validate_config_model`: initialise the result dict with
`exists/callable` false and `error/model_info/suggestion` `None`; run the
existence check, storing its flag and info; on a miss, set the suggestion
when the similar list is nonempty and return; on a hit, run the probe call,
set `callable`, and capture the error text when the call failed. -/
def validate_config_model (available_models : List (List Char × ModelRecord))
    (probe : List Char → Bool × List Char) (model_config : RegistryEntry) :
    ValidationResult :=
  let result : ValidationResult :=
    { id := model_config.id, name := model_config.name,
      modelId := model_config.modelId, exists_ := false, callable := false,
      error := none, model_info := none, suggestion := none }
  let step1 := test_model_exists available_models model_config.modelId
  let result := { result with exists_ := step1.1, model_info := some step1.2 }
  if step1.1 then
    let step2 := probe model_config.modelId
    let result := { result with callable := step2.1 }
    if step2.1 then result else { result with error := some step2.2 }
  else
    match step1.2 with
    | ModelInfo.similar (s :: rest) =>
      { result with
        suggestion := some ("Try one of: ".toList ++ joinComma ((s :: rest).take 3)) }
    | _ => result

/-- `failed = [r for r in results if not r['exists'] or not r['callable']]`. -/
def isFailed (r : ValidationResult) : Bool :=
  !r.exists_ || !r.callable

/-- The report object written to `model_validation_report.json` when at
least one entry failed (the timestamp and the per-cent string formatting are
I/O concerns; the success rate is kept as the exact rational
`(passed / total) * 100`). -/
structure ValidationReport where
  total_tested : Nat
  failed_models : List ValidationResult
  success_rate_pct : ℚ
deriving DecidableEq, Repr

/-- The result-processing tail of `validate_models.main`, after the config
and key loading succeeded: validate every registry entry in order, run
`print_summary`, write the report when any entry failed, and exit 1 on any
failure, else 0.  `print_summary` computes `exists_count/total*100` with
`total = len(results)`, so an empty registry raises `ZeroDivisionError`
there and the run aborts (`none`) before any report or exit-code logic. -/
def validator_main (available_models : List (List Char × ModelRecord))
    (probe : List Char → Bool × List Char) (registry : List RegistryEntry) :
    Option (List ValidationResult × Option ValidationReport × Nat) :=
  let results := registry.map (validate_config_model available_models probe)
  if results.length = 0 then none
  else
    let failed := results.filter isFailed
    let report :=
      if failed.isEmpty then none
      else some { total_tested := results.length, failed_models := failed,
                  success_rate_pct :=
                    ((results.length : ℚ) - failed.length) / results.length * 100 }
    some (results, report, if failed.isEmpty then 0 else 1)

/-! ## Concrete inputs used by witnesses and counterexamples -/

/-- A plain catalog record (price absent, no capabilities). -/
def plainRec (mid : List Char) : ModelRecord :=
  { id := mid, name := none, description := none, pricing_prompt := none,
    context_length := none, supported_parameters := [], modality := [],
    created := none }

/-! ## Claims -/

/-- C5: with every criteria field absent the filter is the identity: it
returns the input list unchanged (and raises no exception). -/
theorem C5_filter_identity (l : List ModelRecord) :
    filter_models l {} = some l := rfl

/-- C1 (code bug evaluation): on an empty registry the validation run does
not complete: `print_summary` divides by the zero total and the run aborts
with an uncaught `ZeroDivisionError` (modelled `none`), so no exit-code or
report logic is reached — contradicting the required empty-report,
exit-success behaviour. -/
theorem C1_empty_registry_run_aborts
    (available_models : List (List Char × ModelRecord))
    (probe : List Char → Bool × List Char) :
    validator_main available_models probe [] = none := rfl

/-- C2 (counterexample): the already-prefixed identifier `"or-custom/model"`
is NOT mapped to `"or-or-custom-model"`: after slash substitution the result
starts with `or-`, so the derivation adds no second prefix. -/
theorem C2_counterexample_already_prefixed :
    deriveLocalId "or-custom/model".toList ≠ "or-or-custom-model".toList := by
  decide

/-- C2 (amended): the exporter's local identifier is `deriveLocalId` of the
catalog identifier; `"openai/gpt-4"` maps to `"or-openai-gpt-4"`, and the
already-prefixed `"or-custom/model"` maps to `"or-custom-model"` (slashes
replaced, and the `or-` prefix added only when not already present). -/
theorem C2_local_id_derivation :
    (∀ m : ModelRecord, (exportEntry m).id = deriveLocalId m.id) ∧
    deriveLocalId "openai/gpt-4".toList = "or-openai-gpt-4".toList ∧
    deriveLocalId "or-custom/model".toList = "or-custom-model".toList := by
  refine ⟨fun m => rfl, by decide, by decide⟩

/-- C10: a present-but-empty provider list is falsy in Python, so the
provider step imposes no constraint at all; in particular the whole filter
with only that criterion set returns the input unchanged. -/
theorem C10_empty_providers_no_constraint :
    (∀ (c : FilterCriteria) (l : List ModelRecord),
      c.providers = some [] → providersStep c l = l) ∧
    (∀ l : List ModelRecord,
      filter_models l { providers := some [] } = some l) := by
  constructor
  · intro c l h
    simp [providersStep, h]
  · intro l
    rfl

/-- C10 witness: the empty-provider criterion applied to a one-record
list. -/
theorem C10_empty_providers_no_constraint_witness :
    ({ providers := some [] } : FilterCriteria).providers = some [] ∧
    providersStep { providers := some [] } [ plainRec "a".toList ] = [ plainRec "a".toList ] :=
  ⟨rfl, C10_empty_providers_no_constraint.1 { providers := some [] } [ plainRec "a".toList ] rfl⟩

/-- C7: the export is a pure per-record mapping: one output entry per input
record, in input order, and every produced entry is disabled and carries the
`Streaming` capability tag. -/
theorem C7_export_shape (l : List ModelRecord) :
    (export_to_config_format l).length = l.length ∧
    (∀ i : Nat, (export_to_config_format l)[i]? = (l[i]?).map exportEntry) ∧
    (∀ e ∈ export_to_config_format l,
      e.enabled = false ∧ "Streaming".toList ∈ e.capabilities) := by
  refine ⟨List.length_map _ _, fun i => ?_, fun e he => ?_⟩
  · simp [export_to_config_format]
  · rcases List.mem_map.mp he with ⟨m, _, rfl⟩
    refine ⟨rfl, ?_⟩
    simp [exportEntry, deriveCapabilities]

/-- C7 witness: a one-record export. -/
theorem C7_export_shape_witness :
    (export_to_config_format [ plainRec "a".toList ]).length = 1 ∧
    (exportEntry (plainRec "a".toList)).enabled = false ∧
    "Streaming".toList ∈ (exportEntry (plainRec "a".toList)).capabilities := by
  obtain ⟨h1, _, h3⟩ := C7_export_shape [ plainRec "a".toList ]
  have hm : exportEntry (plainRec "a".toList) ∈ export_to_config_format [ plainRec "a".toList ] := by
    simp [export_to_config_format]
  exact ⟨h1, (h3 _ hm).1, (h3 _ hm).2⟩

/-- `List.find?` returns the element at the first index satisfying the
predicate. -/
theorem find?_eq_get_of_first {α : Type} (p : α → Bool) :
    ∀ (l : List α) (i : Nat) (h : i < l.length),
      p (l.get ⟨i, h⟩) = true →
      (∀ (j : Nat) (hj : j < i), p (l.get ⟨j, Nat.lt_trans hj h⟩) = false) →
      l.find? p = some (l.get ⟨i, h⟩)
  | a :: _, 0, _, hp, _ => by
    have ha : p a = true := hp
    simp [List.find?, ha]
  | a :: t, i + 1, h, hp, hprev => by
    have ha : p a = false := hprev 0 (Nat.succ_pos i)
    have ih := find?_eq_get_of_first p t i (Nat.lt_of_succ_lt_succ h) hp
      (fun j hj => hprev (j + 1) (Nat.succ_lt_succ hj))
    simpa [List.find?, ha] using ih

/-- C8: the provider label scans the fixed ordered substring-to-label
mapping (openai, anthropic, google, meta-llama, deepseek, qwen, mistralai,
cohere, x-ai, perplexity): the first key occurring case-insensitively in the
catalog identifier wins, and with no match the label is `Unknown`. -/
theorem C8_provider_first_match :
    provider_map.map Prod.fst =
      [ "openai".toList, "anthropic".toList, "google".toList,
        "meta-llama".toList, "deepseek".toList, "qwen".toList,
        "mistralai".toList, "cohere".toList, "x-ai".toList,
        "perplexity".toList ] ∧
    (∀ mid : List Char,
      ((∀ kv ∈ provider_map, hasSub kv.1 (lowerStr mid) = false) →
        deriveProvider mid = "Unknown".toList) ∧
      (∀ (i : Nat) (h : i < provider_map.length),
        hasSub (provider_map.get ⟨i, h⟩).1 (lowerStr mid) = true →
        (∀ (j : Nat) (hj : j < i),
          hasSub (provider_map.get ⟨j, Nat.lt_trans hj h⟩).1 (lowerStr mid) = false) →
        deriveProvider mid = (provider_map.get ⟨i, h⟩).2)) := by
  refine ⟨rfl, fun mid => ⟨fun hnone => ?_, fun i h hp hprev => ?_⟩⟩
  · unfold deriveProvider
    rw [List.find?_eq_none.mpr (fun kv hkv => by simp [hnone kv hkv])]
  · unfold deriveProvider
    rw [find?_eq_get_of_first _ provider_map i h hp hprev]

/-- C8 witness: `"anthropic/claude-3"` matches the second key and no
earlier one, so the label is `Anthropic`. -/
theorem C8_provider_first_match_witness :
    hasSub (provider_map.get ⟨1, by decide⟩).1
      (lowerStr "anthropic/claude-3".toList) = true ∧
    deriveProvider "anthropic/claude-3".toList = (provider_map.get ⟨1, by decide⟩).2 := by
  have hp : hasSub (provider_map.get ⟨1, by decide⟩).1
      (lowerStr "anthropic/claude-3".toList) = true := by decide
  have hprev : ∀ (j : Nat) (hj : j < 1),
      hasSub (provider_map.get ⟨j, Nat.lt_trans hj (by decide)⟩).1
        (lowerStr "anthropic/claude-3".toList) = false := by decide
  exact ⟨hp, (C8_provider_first_match.2 _).2 1 (by decide) hp hprev⟩

/-- Field-level description of `validate_config_model`: the existence flag
is the existence-check outcome, the callable flag is set only after a
passed existence check and equals the probe outcome there, and the error
text is captured exactly when the entry exists but the probe failed. -/
theorem validate_config_model_fields
    (available_models : List (List Char × ModelRecord))
    (probe : List Char → Bool × List Char) (e : RegistryEntry) :
    (validate_config_model available_models probe e).exists_ =
      (test_model_exists available_models e.modelId).1 ∧
    (validate_config_model available_models probe e).callable =
      ((test_model_exists available_models e.modelId).1 && (probe e.modelId).1) ∧
    (validate_config_model available_models probe e).error =
      (if (test_model_exists available_models e.modelId).1 && !(probe e.modelId).1
       then some (probe e.modelId).2 else none) := by
  unfold validate_config_model
  rcases hs : test_model_exists available_models e.modelId with ⟨b, info⟩
  rcases hp : probe e.modelId with ⟨ok, msg⟩
  cases b
  · cases info with
    | record m => simp
    | similar ids => cases ids <;> simp
  · cases ok <;> simp

/-- C9: every produced `ValidationResult` satisfies the invariant that the
callable flag implies the exists flag, and the error detail is non-null
only when the entry exists but its probe call failed. -/
theorem C9_validation_result_invariant
    (available_models : List (List Char × ModelRecord))
    (probe : List Char → Bool × List Char) (e : RegistryEntry) :
    ((validate_config_model available_models probe e).callable = true →
      (validate_config_model available_models probe e).exists_ = true) ∧
    ((validate_config_model available_models probe e).error ≠ none →
      (validate_config_model available_models probe e).exists_ = true ∧
      (validate_config_model available_models probe e).callable = false) := by
  obtain ⟨he, hc, herr⟩ := validate_config_model_fields available_models probe e
  constructor
  · intro h
    rw [hc] at h
    rw [he]
    simp only [Bool.and_eq_true] at h
    exact h.1
  · intro h
    rw [herr] at h
    by_cases hcond :
        ((test_model_exists available_models e.modelId).1 && !(probe e.modelId).1) = true
    · simp only [Bool.and_eq_true, Bool.not_eq_true] at hcond
      obtain ⟨h1, h2⟩ := hcond
      refine ⟨by rw [he]; exact h1, ?_⟩
      rw [hc, h1]
      simpa using h2
    · rw [if_neg hcond] at h
      exact absurd rfl h

/-- A one-entry catalog for the C9 witness. -/
def amC9 : List (List Char × ModelRecord) :=
  [ ("m1".toList, plainRec "m1".toList) ]

/-- A probe oracle that always fails, for the C9 witness. -/
def probeFail (_ : List Char) : Bool × List Char :=
  (false, "boom".toList)

/-- A registry entry pointing at `m1`, for the C9 witness. -/
def entryC9 : RegistryEntry :=
  { id := "or-m1".toList, name := "M One".toList, modelId := "m1".toList,
    provider := "Unknown".toList, enabled := false }

/-- C9 witness: an existing model whose probe call fails has a non-null
error, the exists flag set and the callable flag clear. -/
theorem C9_validation_result_invariant_witness :
    (validate_config_model amC9 probeFail entryC9).error ≠ none ∧
    (validate_config_model amC9 probeFail entryC9).exists_ = true ∧
    (validate_config_model amC9 probeFail entryC9).callable = false := by
  have h : (validate_config_model amC9 probeFail entryC9).error ≠ none := by decide
  exact ⟨h, ((C9_validation_result_invariant amC9 probeFail entryC9).2 h).1,
    ((C9_validation_result_invariant amC9 probeFail entryC9).2 h).2⟩

/-- For the results `validator_main` aggregates, failing is exactly not
being callable (an absent entry is never callable). -/
theorem isFailed_validate (available_models : List (List Char × ModelRecord))
    (probe : List Char → Bool × List Char) (e : RegistryEntry) :
    isFailed (validate_config_model available_models probe e) =
      !(validate_config_model available_models probe e).callable := by
  obtain ⟨he, hc, _⟩ := validate_config_model_fields available_models probe e
  unfold isFailed
  rw [he, hc]
  cases (test_model_exists available_models e.modelId).1 <;>
    cases (probe e.modelId).1 <;> rfl

/-- C4 (counterexample): on the empty registry every entry vacuously
reached `callable`, yet the run does not exit with success — it aborts in
`print_summary` on the zero division before reaching the exit logic. -/
theorem C4_counterexample_empty_registry :
    (∀ r ∈ ([] : List RegistryEntry).map
        (validate_config_model [] (fun _ => (true, []))), r.callable = true) ∧
    validator_main [] (fun _ => (true, [])) [] = none :=
  ⟨by simp, rfl⟩

/-- C4 (amended): for a nonempty registry, the run completes; it exits 0
exactly when every entry reached `callable`, and on exit 1 a report is
written whose failed list is exactly the failing results (and is
nonempty); on exit 0 no report is written. -/
theorem C4_exit_iff_all_callable
    (available_models : List (List Char × ModelRecord))
    (probe : List Char → Bool × List Char) (registry : List RegistryEntry)
    (hne : registry ≠ []) :
    ∃ results report code,
      validator_main available_models probe registry = some (results, report, code) ∧
      results = registry.map (validate_config_model available_models probe) ∧
      (code = 0 ↔ ∀ r ∈ results, r.callable = true) ∧
      (code = 0 ∨ code = 1) ∧
      (code = 1 → ∃ rep, report = some rep ∧
        rep.failed_models = results.filter isFailed ∧ rep.failed_models ≠ []) ∧
      (code = 0 → report = none) := by
  have hlen : (registry.map (validate_config_model available_models probe)).length ≠ 0 := by
    simpa [List.length_eq_zero] using hne
  have hall : (registry.map (validate_config_model available_models probe)).filter
        isFailed = [] ↔
      ∀ r ∈ registry.map (validate_config_model available_models probe),
        r.callable = true := by
    rw [List.filter_eq_nil_iff]
    constructor
    · intro hf r hr
      rcases List.mem_map.mp hr with ⟨e, _, rfl⟩
      have := hf _ hr
      rw [isFailed_validate] at this
      simpa using this
    · intro hc r hr
      rcases List.mem_map.mp hr with ⟨e, _, rfl⟩
      rw [isFailed_validate]
      simp [hc _ hr]
  have hmain : validator_main available_models probe registry =
      some (registry.map (validate_config_model available_models probe),
        if ((registry.map (validate_config_model available_models probe)).filter
            isFailed).isEmpty then none
        else some
          { total_tested := (registry.map (validate_config_model available_models probe)).length,
            failed_models := (registry.map (validate_config_model available_models probe)).filter
              isFailed,
            success_rate_pct :=
              (((registry.map (validate_config_model available_models probe)).length : ℚ) -
                ((registry.map (validate_config_model available_models probe)).filter
                  isFailed).length) /
                ((registry.map (validate_config_model available_models probe)).length : ℚ) * 100 },
        if ((registry.map (validate_config_model available_models probe)).filter
            isFailed).isEmpty then 0 else 1) := by
    unfold validator_main
    rw [if_neg hlen]
  by_cases hf : ((registry.map (validate_config_model available_models probe)).filter
      isFailed).isEmpty
  · rw [if_pos hf, if_pos hf] at hmain
    refine ⟨_, _, _, hmain, rfl, ?_, Or.inl rfl, ?_, fun _ => rfl⟩
    · exact ⟨fun _ => hall.mp (List.isEmpty_iff.mp hf), fun _ => rfl⟩
    · intro h01
      exact absurd h01 (by decide)
  · rw [if_neg hf, if_neg hf] at hmain
    refine ⟨_, _, _, hmain, rfl, ?_, Or.inr rfl, ?_, ?_⟩
    · constructor
      · intro h10
        exact absurd h10 (by decide)
      · intro hc
        exact absurd (List.isEmpty_iff.mpr (hall.mpr hc)) hf
    · intro _
      refine ⟨_, rfl, rfl, ?_⟩
      intro hnil
      exact hf (List.isEmpty_iff.mpr hnil)
    · intro h10
      exact absurd h10 (by decide)

/-- A probe oracle that always succeeds, for the C4 witness. -/
def probeOk (_ : List Char) : Bool × List Char :=
  (true, "OK".toList)

/-- C4 witness: a one-entry registry whose entry exists and is callable. -/
theorem C4_exit_iff_all_callable_witness :
    ([ entryC9 ] : List RegistryEntry) ≠ [] ∧
    (∃ results report code,
      validator_main amC9 probeOk [ entryC9 ] = some (results, report, code) ∧
      results = [ entryC9 ].map (validate_config_model amC9 probeOk) ∧
      (code = 0 ↔ ∀ r ∈ results, r.callable = true) ∧
      (code = 0 ∨ code = 1) ∧
      (code = 1 → ∃ rep, report = some rep ∧
        rep.failed_models = results.filter isFailed ∧ rep.failed_models ≠ []) ∧
      (code = 0 → report = none)) :=
  ⟨by decide, C4_exit_iff_all_callable amC9 probeOk [ entryC9 ] (by decide)⟩

/-- The effective prompt price asserted by the specification: the parsed
price when the field parses, else the 999 per-token sentinel (the spec
assigns the sentinel to missing AND unparseable prices alike). -/
def effPromptPrice (m : ModelRecord) : ℚ :=
  match m.pricing_prompt with
  | some (some q) => q
  | _ => 999

/-- A record whose prompt price is present but unparseable. -/
def unparseableRec : ModelRecord :=
  { plainRec "x".toList with pricing_prompt := some none }

/-- C3 (counterexample): on a record with a present but unparseable prompt
price, `float()` raises and the whole filter run aborts — even though the
threshold exceeds 999,000,000, where the claim says the record is kept. -/
theorem C3_counterexample_unparseable_price :
    filter_models [ unparseableRec ] { max_input_price := some 10000000000 } = none ∧
    (999 : ℚ) * 1000000 ≤ 10000000000 :=
  ⟨rfl, by norm_num⟩

/-- On a list with no unparseable price, the pricing comprehension keeps
exactly the records whose effective price scaled to per-million-token units
is at most the threshold. -/
theorem priceFilter_eq_filter (t : ℚ) :
    ∀ l : List ModelRecord, (∀ m ∈ l, m.pricing_prompt ≠ some none) →
      priceFilter t l =
        some (l.filter (fun m => decide (effPromptPrice m * 1000000 ≤ t)))
  | [], _ => rfl
  | m :: rest, h => by
    have hm := h m (List.mem_cons_self m rest)
    have ih := priceFilter_eq_filter t rest (fun x hx => h x (List.mem_cons_of_mem m hx))
    match hp : m.pricing_prompt with
    | none =>
      have heff : effPromptPrice m = 999 := by simp [effPromptPrice, hp]
      simp only [priceFilter, pyFloatPrice, hp, ih, Option.map_some, List.filter_cons, heff]
      by_cases hle : (999 : ℚ) * 1000000 ≤ t <;> simp [hle]
    | some none => exact absurd hp hm
    | some (some q) =>
      have heff : effPromptPrice m = q := by simp [effPromptPrice, hp]
      simp only [priceFilter, pyFloatPrice, hp, ih, Option.map_some, List.filter_cons, heff]
      by_cases hle : q * 1000000 ≤ t <;> simp [hle]

/-- C3 (amended): when every record's prompt price is absent or parseable,
the price filter keeps exactly the records whose effective price (missing
price = 999 per token) times 1,000,000 is at most the threshold; and with
threshold 0 every surviving record has a non-positive effective price, so
every positively priced or missing-priced record is excluded. -/
theorem C3_price_filter (l : List ModelRecord) (t : ℚ)
    (h : ∀ m ∈ l, m.pricing_prompt ≠ some none) :
    filter_models l { max_input_price := some t } =
      some (l.filter (fun m => decide (effPromptPrice m * 1000000 ≤ t))) ∧
    (∀ res, filter_models l { max_input_price := some 0 } = some res →
      ∀ m ∈ res, effPromptPrice m ≤ 0) := by
  have h1 : ∀ u : ℚ, filter_models l { max_input_price := some u } =
      some (l.filter (fun m => decide (effPromptPrice m * 1000000 ≤ u))) := by
    intro u
    show (priceFilter u l).map _ = _
    rw [priceFilter_eq_filter u l h]
    rfl
  refine ⟨h1 t, fun res hres m hm => ?_⟩
  rw [h1 0] at hres
  rw [← Option.some_inj.mp hres] at hm
  have := of_decide_eq_true (List.mem_filter.mp hm).2
  linarith

/-- A record with a parseable zero prompt price. -/
def zeroPriceRec : ModelRecord :=
  { plainRec "z".toList with pricing_prompt := some (some 0) }

/-- C3 witness: a two-record list (one missing price, one zero price) with
no unparseable price. -/
theorem C3_price_filter_witness :
    (∀ m ∈ [ plainRec "a".toList, zeroPriceRec ], m.pricing_prompt ≠ some none) ∧
    (filter_models [ plainRec "a".toList, zeroPriceRec ] { max_input_price := some 5 } =
      some (List.filter (fun m => decide (effPromptPrice m * 1000000 ≤ 5))
        [ plainRec "a".toList, zeroPriceRec ]) ∧
    (∀ res, filter_models [ plainRec "a".toList, zeroPriceRec ]
        { max_input_price := some 0 } = some res →
      ∀ m ∈ res, effPromptPrice m ≤ 0)) :=
  ⟨by decide, C3_price_filter [ plainRec "a".toList, zeroPriceRec ] 5 (by decide)⟩

/-- Two records with distinct creation timestamps, for the C6
counterexample. -/
def oldRec : ModelRecord :=
  { plainRec "old".toList with created := some 1 }

/-- The newer of the two C6 records. -/
def newRec : ModelRecord :=
  { plainRec "new".toList with created := some 2 }

/-- C6 (counterexample): the recency criterion present with the value 0 is
falsy in Python, so no re-sort (and no truncation) happens: the older
record stays first even though the claim requires timestamp-descending
order whenever the criterion is present. -/
theorem C6_counterexample_recent_zero :
    filter_models [ oldRec, newRec ] { recent_days := some 0 } =
      some [ oldRec, newRec ] ∧
    createdKey oldRec < createdKey newRec :=
  ⟨rfl, by decide⟩

/-- The sorted-then-truncated list of the recency stage is pairwise ordered
by creation key descending. -/
theorem recency_sorted (x : List ModelRecord) :
    List.Sorted (fun a b => createdKey b ≤ createdKey a)
      ((x.mergeSort (fun a b => createdKey b ≤ createdKey a)).take 50) := by
  have h := @List.sorted_mergeSort ModelRecord
    (fun a b : ModelRecord => decide (createdKey b ≤ createdKey a))
    (fun a b c hab hbc => by
      simp only [decide_eq_true_eq] at hab hbc ⊢
      omega)
    (fun a b => by
      simp only [Bool.or_eq_true, decide_eq_true_eq]
      omega)
    x
  have h' : List.Sorted (fun a b : ModelRecord => createdKey b ≤ createdKey a)
      (x.mergeSort (fun a b => createdKey b ≤ createdKey a)) :=
    h.imp (fun hab => of_decide_eq_true hab)
  exact List.Pairwise.sublist (List.take_sublist 50 _) h'

/-- The search stage only ever drops records. -/
theorem searchStep_sublist (c : FilterCriteria) (l : List ModelRecord) :
    (searchStep c l).Sublist l := by
  unfold searchStep
  match c.search_term with
  | none => exact List.Sublist.refl l
  | some s =>
    by_cases hs : s.isEmpty <;> simp [hs]

/-- C6 (amended): when the recency criterion is present with a nonzero
number of days, the recency stage is exactly the descending stable sort by
creation key (missing timestamps count as 0 and hence sort last) truncated
to 50 entries; consequently any completed filter result has at most 50
records and is ordered by creation key descending. -/
theorem C6_recency_sort_truncate (c : FilterCriteria) (l : List ModelRecord)
    (d : Nat) (hc : c.recent_days = some d) (hd : d ≠ 0) :
    recencyStep c l =
      (l.mergeSort (fun a b => createdKey b ≤ createdKey a)).take 50 ∧
    (recencyStep c l).length ≤ 50 ∧
    List.Sorted (fun a b => createdKey b ≤ createdKey a) (recencyStep c l) ∧
    (∀ res, filter_models l c = some res →
      res.length ≤ 50 ∧
      List.Sorted (fun a b => createdKey b ≤ createdKey a) res) := by
  have hstep : ∀ x : List ModelRecord,
      recencyStep c x =
        (x.mergeSort (fun a b => createdKey b ≤ createdKey a)).take 50 := by
    intro x
    simp [recencyStep, hc, hd]
  have hlen : ∀ x : List ModelRecord, (recencyStep c x).length ≤ 50 := by
    intro x
    rw [hstep x, List.length_take]
    exact min_le_left _ _
  have hsort : ∀ x : List ModelRecord,
      List.Sorted (fun a b => createdKey b ≤ createdKey a) (recencyStep c x) := by
    intro x
    rw [hstep x]
    exact recency_sorted x
  refine ⟨hstep l, hlen l, hsort l, fun res hres => ?_⟩
  unfold filter_models at hres
  match hps : priceStep c (visionStep c (toolsStep c l)) with
  | none => rw [hps] at hres; exact absurd hres (by simp)
  | some pl =>
    rw [hps] at hres
    have hres' : searchStep c (recencyStep c (providersStep c (contextStep c pl))) = res := by
      simpa using hres
    have hsub : res.Sublist (recencyStep c (providersStep c (contextStep c pl))) := by
      rw [← hres']
      exact searchStep_sublist c _
    constructor
    · exact le_trans hsub.length_le (hlen _)
    · exact List.Pairwise.sublist hsub (hsort _)

/-- C6 witness: a two-record list under a 30-day recency criterion. -/
theorem C6_recency_sort_truncate_witness :
    ({ recent_days := some 30 } : FilterCriteria).recent_days = some 30 ∧
    (30 : Nat) ≠ 0 ∧
    (recencyStep { recent_days := some 30 } [ oldRec, newRec ]).length ≤ 50 :=
  ⟨rfl, by decide,
    (C6_recency_sort_truncate { recent_days := some 30 } [ oldRec, newRec ] 30
      rfl (by decide)).2.1⟩
